import Mathlib

/-
Shallow embedding of the Mark backend Trust Score Engine
(src/services/TrustScoreService.ts together with the trust-score section of
src/config.ts and the Prisma data model).

Database rows become Lean structures; the Prisma store becomes an explicit
EngineState record; each async service method becomes a state-passing
function EngineState -> EngineState x Except String A, where an Except.error
models a thrown exception.  Nullable SQL columns become Option; JavaScript
truthiness on nullable string columns (used by the profile-completeness and
whitepaper/social rules) is the predicate "present and non-empty".
-/

namespace MarkBackend

/-- JavaScript truthiness of a nullable string column: null and the empty
string are falsy, every other string is truthy. -/
def truthy : Option String → Bool
  | none => false
  | some s => s ≠ ""

inductive IdentityStatus
  | NOT_STARTED | PENDING | IN_REVIEW | VERIFIED | REJECTED | EXPIRED
deriving DecidableEq

inductive KYBLevel
  | NONE | BASIC | STANDARD | ENHANCED
deriving DecidableEq

inductive TrustScoreTier
  | EXCELLENT | GOOD | NEUTRAL | CAUTION | HIGH_RISK
deriving DecidableEq

inductive TrustScoreEventType
  | IDENTITY_VERIFIED | LIQUIDITY_LOCKED | VESTING_CONFIGURED
  | PROFILE_COMPLETED | AUDIT_SUBMITTED | DOCS_UPLOADED | KYB_VERIFIED
  | MANUAL_ADJUSTMENT | PENALTY_APPLIED | BONUS_APPLIED
deriving DecidableEq

inductive EntityType
  | project | business
deriving DecidableEq

/-- Row of PrivateIdentityVerification (only the columns the engine reads). -/
structure PrivateIdentityVerification where
  userId : String
  status : IdentityStatus
deriving DecidableEq

/-- Row of ProjectDocument / BusinessDocument (only the columns the engine
reads). -/
structure Document where
  type : String
  isVerified : Bool
deriving DecidableEq

/-- Row of BusinessFounder (only the column the engine reads). -/
structure Founder where
  kycVerified : Bool
deriving DecidableEq

/-- Row of CryptoProject, restricted to the columns the Trust Score Engine
reads or writes.  teamAllocationPercent is DOUBLE PRECISION in SQL but the
engine only compares it against null, so Option Int is adequate. -/
structure CryptoProject where
  id : String
  userId : String
  name : String
  description : Option String
  category : Option String
  totalSupply : Option String
  teamAllocationPercent : Option Int
  teamVestingMonths : Option Int
  liquidityLockMonths : Option Int
  auditProvider : Option String
  auditReportUrl : Option String
  whitepaper : Option String
  twitter : Option String
  discord : Option String
  telegram : Option String
  contractVerified : Bool
  trustScore : Int
deriving DecidableEq

/-- Row of Business, restricted to the columns the Trust Score Engine reads
or writes. -/
structure Business where
  id : String
  userId : String
  legalName : String
  entityType : Option String
  jurisdiction : Option String
  description : Option String
  industry : Option String
  businessEmail : Option String
  website : Option String
  ein : Option String
  registrationNumber : Option String
  kybLevel : KYBLevel
  trustScore : Int
deriving DecidableEq

/-- Row of TrustScoreEvent (the score ledger). -/
structure TrustScoreEvent where
  projectId : Option String
  businessId : Option String
  eventType : TrustScoreEventType
  points : Int
  reason : String
  triggeredBy : Option String
deriving DecidableEq

/-- One audit line written through logger.audit. -/
structure AuditRecord where
  category : String
  action : String
  message : String
  userId : String
deriving DecidableEq

structure TrustScoreFactor where
  name : String
  points : Int
  maxPoints : Int
  achieved : Bool
  description : String
deriving DecidableEq

structure HistoryEntry where
  score : Int
  eventType : TrustScoreEventType
  points : Int
  reason : String
deriving DecidableEq

structure TrustScoreResult where
  entityId : String
  entityType : EntityType
  currentScore : Int
  tier : TrustScoreTier
  factors : List TrustScoreFactor
  history : List HistoryEntry
deriving DecidableEq

-- ===========================================================================
-- config.trustScore (src/config.ts)
-- ===========================================================================

def config.trustScore.baseScore : Int := 50
def config.trustScore.maxScore : Int := 100
def config.trustScore.minScore : Int := 0

def config.trustScore.crypto.identityVerified : Int := 20
def config.trustScore.crypto.liquidityLock6Months : Int := 15
def config.trustScore.crypto.liquidityLock12Months : Int := 20
def config.trustScore.crypto.vesting12Months : Int := 10
def config.trustScore.crypto.vesting24Months : Int := 15
def config.trustScore.crypto.profileComplete : Int := 10
def config.trustScore.crypto.externalAudit : Int := 10
def config.trustScore.crypto.whitepaperSocials : Int := 5
def config.trustScore.crypto.contractVerified : Int := 5

def config.trustScore.business.kybBasic : Int := 10
def config.trustScore.business.kybStandard : Int := 15
def config.trustScore.business.kybEnhanced : Int := 20
def config.trustScore.business.financialDocs : Int := 15
def config.trustScore.business.einRegistration : Int := 10
def config.trustScore.business.profileComplete : Int := 10
def config.trustScore.business.externalAccountingReview : Int := 10

def config.trustScore.penalties.missedReport : Int := -15
def config.trustScore.penalties.communityReport : Int := -15

-- ===========================================================================
-- Rule table machinery
-- ===========================================================================

structure EvaluationContext where
  identity : Option PrivateIdentityVerification := none
  documentsCount : Option Nat := none
  hasFinancialDocs : Option Bool := none
  hasAuditDocs : Option Bool := none
  founderCount : Option Nat := none
  founderKycCount : Option Nat := none
deriving DecidableEq

structure ScoreRule (E : Type) where
  name : String
  maxPoints : Int
  description : String
  evaluate : E → EvaluationContext → Int

/-- requiredFields.filter(Boolean).length, as an Int. -/
def countTrue (fields : List Bool) : Int :=
  ((fields.filter id).length : Int)

-- ===========================================================================
-- cryptoRules (the project rule table, in source order)
-- ===========================================================================

def identityVerificationRule : ScoreRule CryptoProject :=
  { name := "Identity Verification"
    maxPoints := config.trustScore.crypto.identityVerified
    description := "Team lead has completed private identity verification"
    evaluate := fun _ context =>
      match context.identity with
      | some idv =>
          if idv.status = IdentityStatus.VERIFIED then
            config.trustScore.crypto.identityVerified
          else 0
      | none => 0 }

/- The next two rules test `project.liquidityLockMonths && lockMonths >= n`
in the source; JavaScript truthiness of the number only excludes 0 and null,
both of which already fail the >= comparison, so the test is exactly
"column present and at least n". -/

def liquidityLock6Rule : ScoreRule CryptoProject :=
  { name := "Liquidity Lock (6+ months)"
    maxPoints := config.trustScore.crypto.liquidityLock6Months
    description := "Initial liquidity is locked for at least 6 months"
    evaluate := fun project _ =>
      match project.liquidityLockMonths with
      | some m => if 6 ≤ m then config.trustScore.crypto.liquidityLock6Months else 0
      | none => 0 }

def liquidityLock12Rule : ScoreRule CryptoProject :=
  { name := "Liquidity Lock (12+ months)"
    maxPoints := config.trustScore.crypto.liquidityLock12Months -
      config.trustScore.crypto.liquidityLock6Months
    description := "Initial liquidity is locked for at least 12 months (additional bonus)"
    evaluate := fun project _ =>
      match project.liquidityLockMonths with
      | some m =>
          if 12 ≤ m then
            config.trustScore.crypto.liquidityLock12Months -
              config.trustScore.crypto.liquidityLock6Months
          else 0
      | none => 0 }

def vesting12Rule : ScoreRule CryptoProject :=
  { name := "Team Vesting (12+ months)"
    maxPoints := config.trustScore.crypto.vesting12Months
    description := "Team tokens have at least 12 months vesting"
    evaluate := fun project _ =>
      match project.teamVestingMonths with
      | some m => if 12 ≤ m then config.trustScore.crypto.vesting12Months else 0
      | none => 0 }

def vesting24Rule : ScoreRule CryptoProject :=
  { name := "Team Vesting (24+ months)"
    maxPoints := config.trustScore.crypto.vesting24Months -
      config.trustScore.crypto.vesting12Months
    description := "Team tokens have at least 24 months vesting (additional bonus)"
    evaluate := fun project _ =>
      match project.teamVestingMonths with
      | some m =>
          if 24 ≤ m then
            config.trustScore.crypto.vesting24Months -
              config.trustScore.crypto.vesting12Months
          else 0
      | none => 0 }

/- Math.floor(completeness * maxPoints) with completeness = k/5: at every
attainable input k in 0..5 the double-precision evaluation equals the exact
rational floor, i.e. integer division k * maxPoints / 5. -/
def profileCompleteProjectRule : ScoreRule CryptoProject :=
  { name := "Complete Profile"
    maxPoints := config.trustScore.crypto.profileComplete
    description := "Project has a complete profile with all essential information"
    evaluate := fun project _ =>
      let fields : List Bool :=
        [project.name ≠ "",
         truthy project.description,
         truthy project.category,
         truthy project.totalSupply,
         project.teamAllocationPercent ≠ none]
      countTrue fields * config.trustScore.crypto.profileComplete / 5 }

def externalAuditRule : ScoreRule CryptoProject :=
  { name := "External Audit"
    maxPoints := config.trustScore.crypto.externalAudit
    description := "Smart contract has been audited by a third-party"
    evaluate := fun project _ =>
      if truthy project.auditProvider && truthy project.auditReportUrl then
        config.trustScore.crypto.externalAudit
      else 0 }

def whitepaperSocialsRule : ScoreRule CryptoProject :=
  { name := "Whitepaper & Socials"
    maxPoints := config.trustScore.crypto.whitepaperSocials
    description := "Project has whitepaper and active social media presence"
    evaluate := fun project _ =>
      let points : Int :=
        (if truthy project.whitepaper then 2 else 0) +
        (if truthy project.twitter || truthy project.discord || truthy project.telegram
         then 3 else 0)
      min points config.trustScore.crypto.whitepaperSocials }

def contractVerifiedRule : ScoreRule CryptoProject :=
  { name := "Contract Verified"
    maxPoints := config.trustScore.crypto.contractVerified
    description := "Smart contract source code is verified on-chain"
    evaluate := fun project _ =>
      if project.contractVerified then config.trustScore.crypto.contractVerified
      else 0 }

def cryptoRules : List (ScoreRule CryptoProject) :=
  [identityVerificationRule,
   liquidityLock6Rule,
   liquidityLock12Rule,
   vesting12Rule,
   vesting24Rule,
   profileCompleteProjectRule,
   externalAuditRule,
   whitepaperSocialsRule,
   contractVerifiedRule]

-- ===========================================================================
-- businessRules (the business rule table, in source order)
-- ===========================================================================

def kybBasicRule : ScoreRule Business :=
  { name := "KYB Basic"
    maxPoints := config.trustScore.business.kybBasic
    description := "Business has completed basic KYB verification"
    evaluate := fun business _ =>
      if business.kybLevel = KYBLevel.BASIC ∨ business.kybLevel = KYBLevel.STANDARD ∨
         business.kybLevel = KYBLevel.ENHANCED then
        config.trustScore.business.kybBasic
      else 0 }

def kybStandardRule : ScoreRule Business :=
  { name := "KYB Standard"
    maxPoints := config.trustScore.business.kybStandard - config.trustScore.business.kybBasic
    description := "Business has completed standard KYB verification (additional)"
    evaluate := fun business _ =>
      if business.kybLevel = KYBLevel.STANDARD ∨ business.kybLevel = KYBLevel.ENHANCED then
        config.trustScore.business.kybStandard - config.trustScore.business.kybBasic
      else 0 }

def kybEnhancedRule : ScoreRule Business :=
  { name := "KYB Enhanced"
    maxPoints := config.trustScore.business.kybEnhanced - config.trustScore.business.kybStandard
    description := "Business has completed enhanced KYB verification (additional)"
    evaluate := fun business _ =>
      if business.kybLevel = KYBLevel.ENHANCED then
        config.trustScore.business.kybEnhanced - config.trustScore.business.kybStandard
      else 0 }

def financialDocsRule : ScoreRule Business :=
  { name := "Financial Documents"
    maxPoints := config.trustScore.business.financialDocs
    description := "Business has uploaded financial documents (P&L, balance sheet)"
    evaluate := fun _ context =>
      if context.hasFinancialDocs = some true then
        config.trustScore.business.financialDocs
      else 0 }

def einRegistrationRule : ScoreRule Business :=
  { name := "EIN / Registration"
    maxPoints := config.trustScore.business.einRegistration
    description := "Business has valid EIN or registration number on file"
    evaluate := fun business _ =>
      if truthy business.ein || truthy business.registrationNumber then
        config.trustScore.business.einRegistration
      else 0 }

/- As for projects: Math.floor(k/7 * maxPoints) in doubles equals integer
division k * maxPoints / 7 at every attainable k in 0..7. -/
def profileCompleteBusinessRule : ScoreRule Business :=
  { name := "Complete Profile"
    maxPoints := config.trustScore.business.profileComplete
    description := "Business has a complete profile with all essential information"
    evaluate := fun business _ =>
      let fields : List Bool :=
        [business.legalName ≠ "",
         truthy business.entityType,
         truthy business.jurisdiction,
         truthy business.description,
         truthy business.industry,
         truthy business.businessEmail,
         truthy business.website]
      countTrue fields * config.trustScore.business.profileComplete / 7 }

def externalAccountingReviewRule : ScoreRule Business :=
  { name := "External Accounting Review"
    maxPoints := config.trustScore.business.externalAccountingReview
    description := "Financial documents have been reviewed by external accountant"
    evaluate := fun _ context =>
      if context.hasAuditDocs = some true then
        config.trustScore.business.externalAccountingReview
      else 0 }

def businessRules : List (ScoreRule Business) :=
  [kybBasicRule,
   kybStandardRule,
   kybEnhancedRule,
   financialDocsRule,
   einRegistrationRule,
   profileCompleteBusinessRule,
   externalAccountingReviewRule]

-- ===========================================================================
-- Tier classifier
-- ===========================================================================

def getTier (score : Int) : TrustScoreTier :=
  if score ≥ 85 then TrustScoreTier.EXCELLENT
  else if score ≥ 70 then TrustScoreTier.GOOD
  else if score ≥ 50 then TrustScoreTier.NEUTRAL
  else if score ≥ 30 then TrustScoreTier.CAUTION
  else TrustScoreTier.HIGH_RISK

def getTierDescription : TrustScoreTier → String
  | TrustScoreTier.EXCELLENT =>
      "Highly Trusted - This entity has demonstrated exceptional trustworthiness"
  | TrustScoreTier.GOOD =>
      "Trusted - This entity meets high standards of verification and transparency"
  | TrustScoreTier.NEUTRAL =>
      "Standard - This entity meets basic requirements"
  | TrustScoreTier.CAUTION =>
      "Exercise Caution - Some trust factors are missing or concerning"
  | TrustScoreTier.HIGH_RISK =>
      "High Risk - Significant trust factors are missing or concerning"

-- ===========================================================================
-- Engine state: the Prisma store as seen by the Trust Score Engine
-- ===========================================================================

/-- The relational store.  projectDocuments / businessDocuments / founders
carry the id of the owning entity in the first component. -/
structure EngineState where
  projects : List CryptoProject
  businesses : List Business
  identities : List PrivateIdentityVerification
  projectDocuments : List (String × Document)
  businessDocuments : List (String × Document)
  founders : List (String × Founder)
  events : List TrustScoreEvent
  auditLog : List AuditRecord
deriving DecidableEq

def findProject (s : EngineState) (projectId : String) : Option CryptoProject :=
  s.projects.find? (fun p => p.id = projectId)

def findBusiness (s : EngineState) (businessId : String) : Option Business :=
  s.businesses.find? (fun b => b.id = businessId)

/-- prisma.cryptoProject.findUnique include: identityVerification of the
owning user, documents of the project. -/
def buildProjectContext (s : EngineState) (project : CryptoProject) : EvaluationContext :=
  let docs := (s.projectDocuments.filter (fun d => d.1 = project.id)).map Prod.snd
  { identity := s.identities.find? (fun v => v.userId = project.userId)
    documentsCount := some docs.length
    hasAuditDocs := some (docs.any (fun d => d.type = "audit")) }

/-- prisma.business.findUnique include: identityVerification, documents,
founders. -/
def buildBusinessContext (s : EngineState) (business : Business) : EvaluationContext :=
  let docs := (s.businessDocuments.filter (fun d => d.1 = business.id)).map Prod.snd
  let fnds := (s.founders.filter (fun f => f.1 = business.id)).map Prod.snd
  { identity := s.identities.find? (fun v => v.userId = business.userId)
    documentsCount := some docs.length
    hasFinancialDocs := some (docs.any (fun d => d.type = "financial"))
    hasAuditDocs := some (docs.any (fun d => d.type = "audit" && d.isVerified))
    founderCount := some fnds.length
    founderKycCount := some (fnds.filter (fun f => f.kycVerified)).length }

/-- The rule-evaluation loop: starting from the base score, add each rule
result and push the corresponding factor, in table order. -/
def evalRules {E : Type} (rules : List (ScoreRule E)) (entity : E)
    (context : EvaluationContext) : Int × List TrustScoreFactor :=
  rules.foldl
    (fun acc rule =>
      let points := rule.evaluate entity context
      (acc.1 + points,
       acc.2 ++ [{ name := rule.name, points := points, maxPoints := rule.maxPoints,
                   achieved := points > 0, description := rule.description }]))
    (config.trustScore.baseScore, [])

/-- prisma.trustScoreEvent.findMany where projectId = id and points < 0. -/
def projectPenaltyEvents (s : EngineState) (projectId : String) : List TrustScoreEvent :=
  s.events.filter (fun e => decide (e.projectId = some projectId ∧ e.points < 0))

def businessPenaltyEvents (s : EngineState) (businessId : String) : List TrustScoreEvent :=
  s.events.filter (fun e => decide (e.businessId = some businessId ∧ e.points < 0))

/-- All ledger events of one entity, in insertion order. -/
def projectEvents (s : EngineState) (projectId : String) : List TrustScoreEvent :=
  s.events.filter (fun e => decide (e.projectId = some projectId))

def businessEvents (s : EngineState) (businessId : String) : List TrustScoreEvent :=
  s.events.filter (fun e => decide (e.businessId = some businessId))

/-- totalScore = Math.max(minScore, Math.min(maxScore, totalScore)). -/
def clampScore (total : Int) : Int :=
  max config.trustScore.minScore (min config.trustScore.maxScore total)

def updateProjectScore (projects : List CryptoProject) (projectId : String)
    (score : Int) : List CryptoProject :=
  projects.map (fun p => if p.id = projectId then { p with trustScore := score } else p)

def updateBusinessScore (businesses : List Business) (businessId : String)
    (score : Int) : List Business :=
  businesses.map (fun b => if b.id = businessId then { b with trustScore := score } else b)

/-- calculateProjectScore: load the project (throw if absent), evaluate the
crypto rule table, fold in the negative-point ledger events, clamp, persist
the score, write one audit line, return the result (history annotated with
the current total, newest first, at most 10 entries). -/
def calculateProjectScore (s : EngineState) (projectId : String) :
    EngineState × Except String TrustScoreResult :=
  match findProject s projectId with
  | none => (s, Except.error "Project not found")
  | some project =>
      let context := buildProjectContext s project
      let evaluated := evalRules cryptoRules project context
      let totalScore := clampScore
        ((projectPenaltyEvents s projectId).foldl (fun t e => t + e.points) evaluated.1)
      let result : TrustScoreResult :=
        { entityId := projectId
          entityType := EntityType.project
          currentScore := totalScore
          tier := getTier totalScore
          factors := evaluated.2
          history := ((projectEvents s projectId).reverse.take 10).map (fun h =>
            { score := totalScore, eventType := h.eventType,
              points := h.points, reason := h.reason }) }
      ({ s with
          projects := updateProjectScore s.projects projectId totalScore
          auditLog := s.auditLog ++
            [{ category := "TRUST_SCORE", action := "SCORE_CALCULATED",
               message := "Calculated trust score for project " ++ projectId ++ ": " ++
                 toString totalScore,
               userId := project.userId }] },
       Except.ok result)

/-- calculateBusinessScore, same shape over the business rule table. -/
def calculateBusinessScore (s : EngineState) (businessId : String) :
    EngineState × Except String TrustScoreResult :=
  match findBusiness s businessId with
  | none => (s, Except.error "Business not found")
  | some business =>
      let context := buildBusinessContext s business
      let evaluated := evalRules businessRules business context
      let totalScore := clampScore
        ((businessPenaltyEvents s businessId).foldl (fun t e => t + e.points) evaluated.1)
      let result : TrustScoreResult :=
        { entityId := businessId
          entityType := EntityType.business
          currentScore := totalScore
          tier := getTier totalScore
          factors := evaluated.2
          history := ((businessEvents s businessId).reverse.take 10).map (fun h =>
            { score := totalScore, eventType := h.eventType,
              points := h.points, reason := h.reason }) }
      ({ s with
          businesses := updateBusinessScore s.businesses businessId totalScore
          auditLog := s.auditLog ++
            [{ category := "TRUST_SCORE", action := "SCORE_CALCULATED",
               message := "Calculated trust score for business " ++ businessId ++ ": " ++
                 toString totalScore,
               userId := business.userId }] },
       Except.ok result)

/-- The TrustScoreEvent row created by prisma.trustScoreEvent.create inside
recordEvent. -/
def recordedEvent (entityId : String) (entityType : EntityType)
    (eventType : TrustScoreEventType) (points : Int) (reason : String)
    (triggeredBy : Option String) : TrustScoreEvent :=
  { projectId := if entityType = EntityType.project then some entityId else none
    businessId := if entityType = EntityType.business then some entityId else none
    eventType := eventType
    points := points
    reason := reason
    triggeredBy := triggeredBy }

/-- Appending one ledger row. -/
def withEvent (s : EngineState) (event : TrustScoreEvent) : EngineState :=
  { s with events := s.events ++ [event] }

/-- recordEvent: create the ledger event, then recalculate the score of the
target entity.  The event is persisted even when the recalculation throws,
matching the non-transactional source. -/
def recordEvent (s : EngineState) (entityId : String) (entityType : EntityType)
    (eventType : TrustScoreEventType) (points : Int) (reason : String)
    (triggeredBy : Option String) : EngineState × Except String Unit :=
  let s1 := withEvent s (recordedEvent entityId entityType eventType points reason triggeredBy)
  match entityType with
  | EntityType.project =>
      let out := calculateProjectScore s1 entityId
      (out.1, out.2.map (fun _ => ()))
  | EntityType.business =>
      let out := calculateBusinessScore s1 entityId
      (out.1, out.2.map (fun _ => ()))

/-- The for-loop of onIdentityVerified over the owned projects; an exception
thrown by recordEvent aborts the rest of the loop. -/
def identityFanoutProjects : EngineState → List CryptoProject →
    EngineState × Except String Unit
  | s, [] => (s, Except.ok ())
  | s, p :: rest =>
      match recordEvent s p.id EntityType.project TrustScoreEventType.IDENTITY_VERIFIED
        config.trustScore.crypto.identityVerified
        "Team lead completed identity verification" (some "system") with
      | (s1, Except.ok _) => identityFanoutProjects s1 rest
      | (s1, Except.error e) => (s1, Except.error e)

def identityFanoutBusinesses : EngineState → List Business →
    EngineState × Except String Unit
  | s, [] => (s, Except.ok ())
  | s, b :: rest =>
      match recordEvent s b.id EntityType.business TrustScoreEventType.IDENTITY_VERIFIED
        config.trustScore.business.kybBasic
        "Business owner completed identity verification" (some "system") with
      | (s1, Except.ok _) => identityFanoutBusinesses s1 rest
      | (s1, Except.error e) => (s1, Except.error e)

/-- onIdentityVerified: load every project and business owned by the user,
then recordEvent once per entity. -/
def onIdentityVerified (s : EngineState) (userId : String) :
    EngineState × Except String Unit :=
  let projects := s.projects.filter (fun p => p.userId = userId)
  let businesses := s.businesses.filter (fun b => b.userId = userId)
  match identityFanoutProjects s projects with
  | (s1, Except.ok _) => identityFanoutBusinesses s1 businesses
  | (s1, Except.error e) => (s1, Except.error e)

/-- onLiquidityLocked: threshold lookup, recordEvent only when points > 0. -/
def onLiquidityLocked (s : EngineState) (projectId : String) (months : Int) :
    EngineState × Except String Unit :=
  let points : Int :=
    if months ≥ 12 then config.trustScore.crypto.liquidityLock12Months
    else if months ≥ 6 then config.trustScore.crypto.liquidityLock6Months
    else 0
  if points > 0 then
    recordEvent s projectId EntityType.project TrustScoreEventType.LIQUIDITY_LOCKED
      points ("Liquidity locked for " ++ toString months ++ " months") (some "system")
  else (s, Except.ok ())

/-- getProjectScore just recomputes. -/
def getProjectScore (s : EngineState) (projectId : String) :
    EngineState × Except String TrustScoreResult :=
  calculateProjectScore s projectId

def getBusinessScore (s : EngineState) (businessId : String) :
    EngineState × Except String TrustScoreResult :=
  calculateBusinessScore s businessId

def getTierInfo (score : Int) : TrustScoreTier × String :=
  let tier := getTier score
  (tier, getTierDescription tier)

-- ===========================================================================
-- Observations used by the theorems
-- ===========================================================================

def projectIds (s : EngineState) : List String := s.projects.map (fun p => p.id)

def businessIds (s : EngineState) : List String := s.businesses.map (fun b => b.id)

/-- Number of SCORE_CALCULATED audit lines: the engine writes exactly one per
recomputation, so this counts recomputations. -/
def scoreCalcAudits (s : EngineState) : Nat :=
  (s.auditLog.filter (fun a => a.action = "SCORE_CALCULATED")).length

/-- The score computed by calculateProjectScore when the project resolves. -/
def projectTotalScore (s : EngineState) (projectId : String) (project : CryptoProject) : Int :=
  clampScore ((projectPenaltyEvents s projectId).foldl (fun t e => t + e.points)
    (evalRules cryptoRules project (buildProjectContext s project)).1)

def projectCalcResult (s : EngineState) (projectId : String) (project : CryptoProject) :
    TrustScoreResult :=
  { entityId := projectId
    entityType := EntityType.project
    currentScore := projectTotalScore s projectId project
    tier := getTier (projectTotalScore s projectId project)
    factors := (evalRules cryptoRules project (buildProjectContext s project)).2
    history := ((projectEvents s projectId).reverse.take 10).map (fun h =>
      { score := projectTotalScore s projectId project, eventType := h.eventType,
        points := h.points, reason := h.reason }) }

def projectCalcState (s : EngineState) (projectId : String) (project : CryptoProject) :
    EngineState :=
  { s with
      projects := updateProjectScore s.projects projectId (projectTotalScore s projectId project)
      auditLog := s.auditLog ++
        [{ category := "TRUST_SCORE", action := "SCORE_CALCULATED",
           message := "Calculated trust score for project " ++ projectId ++ ": " ++
             toString (projectTotalScore s projectId project),
           userId := project.userId }] }

def businessTotalScore (s : EngineState) (businessId : String) (business : Business) : Int :=
  clampScore ((businessPenaltyEvents s businessId).foldl (fun t e => t + e.points)
    (evalRules businessRules business (buildBusinessContext s business)).1)

def businessCalcResult (s : EngineState) (businessId : String) (business : Business) :
    TrustScoreResult :=
  { entityId := businessId
    entityType := EntityType.business
    currentScore := businessTotalScore s businessId business
    tier := getTier (businessTotalScore s businessId business)
    factors := (evalRules businessRules business (buildBusinessContext s business)).2
    history := ((businessEvents s businessId).reverse.take 10).map (fun h =>
      { score := businessTotalScore s businessId business, eventType := h.eventType,
        points := h.points, reason := h.reason }) }

def businessCalcState (s : EngineState) (businessId : String) (business : Business) :
    EngineState :=
  { s with
      businesses := updateBusinessScore s.businesses businessId
        (businessTotalScore s businessId business)
      auditLog := s.auditLog ++
        [{ category := "TRUST_SCORE", action := "SCORE_CALCULATED",
           message := "Calculated trust score for business " ++ businessId ++ ": " ++
             toString (businessTotalScore s businessId business),
           userId := business.userId }] }

-- ===========================================================================
-- Helper lemmas
-- ===========================================================================

lemma foldl_add_points (l : List TrustScoreEvent) (init : Int) :
    l.foldl (fun t e => t + e.points) init = init + (l.map (fun e => e.points)).sum := by
  induction l generalizing init with
  | nil => simp
  | cons e rest ih => simp [List.foldl_cons, ih]; ring

lemma evalRules_foldl_fst {E : Type} (rules : List (ScoreRule E)) (entity : E)
    (context : EvaluationContext) (t : Int) (fs : List TrustScoreFactor) :
    (rules.foldl
      (fun acc rule =>
        let points := rule.evaluate entity context
        (acc.1 + points,
         acc.2 ++ [{ name := rule.name, points := points, maxPoints := rule.maxPoints,
                     achieved := points > 0, description := rule.description }]))
      (t, fs)).1 = t + (rules.map (fun r => r.evaluate entity context)).sum := by
  induction rules generalizing t fs with
  | nil => simp
  | cons r rest ih => simp [List.foldl_cons, ih]; ring

/-- The rule loop computes base score plus the sum of the rule evaluations. -/
lemma evalRules_fst {E : Type} (rules : List (ScoreRule E)) (entity : E)
    (context : EvaluationContext) :
    (evalRules rules entity context).1 =
      config.trustScore.baseScore + (rules.map (fun r => r.evaluate entity context)).sum :=
  evalRules_foldl_fst rules entity context _ _

lemma clampScore_nonneg (t : Int) : 0 ≤ clampScore t := by
  simp only [clampScore, config.trustScore.minScore]
  exact le_max_left 0 _

lemma clampScore_le (t : Int) : clampScore t ≤ 100 := by
  simp only [clampScore, config.trustScore.minScore, config.trustScore.maxScore]
  exact max_le (by norm_num) (min_le_left _ _)

lemma calculateProjectScore_ok (s : EngineState) (projectId : String) (p : CryptoProject)
    (h : findProject s projectId = some p) :
    calculateProjectScore s projectId =
      (projectCalcState s projectId p, Except.ok (projectCalcResult s projectId p)) := by
  unfold calculateProjectScore
  rw [h]
  rfl

lemma calculateBusinessScore_ok (s : EngineState) (businessId : String) (b : Business)
    (h : findBusiness s businessId = some b) :
    calculateBusinessScore s businessId =
      (businessCalcState s businessId b, Except.ok (businessCalcResult s businessId b)) := by
  unfold calculateBusinessScore
  rw [h]
  rfl

lemma calculateProjectScore_notFound (s : EngineState) (projectId : String)
    (h : findProject s projectId = none) :
    calculateProjectScore s projectId = (s, Except.error "Project not found") := by
  unfold calculateProjectScore
  rw [h]

lemma calculateBusinessScore_notFound (s : EngineState) (businessId : String)
    (h : findBusiness s businessId = none) :
    calculateBusinessScore s businessId = (s, Except.error "Business not found") := by
  unfold calculateBusinessScore
  rw [h]

lemma updateProjectScore_id (p : CryptoProject) (v : Int) :
    ({ p with trustScore := v } : CryptoProject).id = p.id := rfl

lemma updateProjectScore_ids (l : List CryptoProject) (projectId : String) (v : Int) :
    (updateProjectScore l projectId v).map (fun p => p.id) = l.map (fun p => p.id) := by
  unfold updateProjectScore
  rw [List.map_map]
  apply List.map_congr_left
  intro p _
  by_cases h : p.id = projectId <;> simp [h, Function.comp]

lemma updateBusinessScore_ids (l : List Business) (businessId : String) (v : Int) :
    (updateBusinessScore l businessId v).map (fun b => b.id) = l.map (fun b => b.id) := by
  unfold updateBusinessScore
  rw [List.map_map]
  apply List.map_congr_left
  intro b _
  by_cases h : b.id = businessId <;> simp [h, Function.comp]

/-- find? on an id-keyed update returns the updated row. -/
lemma find?_updateProjectScore (l : List CryptoProject) (projectId : String) (v : Int)
    (p : CryptoProject) (h : l.find? (fun q => q.id = projectId) = some p) :
    (updateProjectScore l projectId v).find? (fun q => q.id = projectId) =
      some { p with trustScore := v } := by
  have hp := List.find?_some h
  have hpid : p.id = projectId := by simpa using hp
  unfold updateProjectScore
  rw [List.find?_map]
  have hpred : ((fun q : CryptoProject => decide (q.id = projectId)) ∘
      (fun q : CryptoProject => if q.id = projectId then { q with trustScore := v } else q)) =
      (fun q : CryptoProject => decide (q.id = projectId)) := by
    funext q
    by_cases hq : q.id = projectId <;> simp [hq, Function.comp]
  rw [hpred, h]
  simp [hpid]

lemma find?_updateBusinessScore (l : List Business) (businessId : String) (v : Int)
    (b : Business) (h : l.find? (fun q => q.id = businessId) = some b) :
    (updateBusinessScore l businessId v).find? (fun q => q.id = businessId) =
      some { b with trustScore := v } := by
  have hb := List.find?_some h
  have hbid : b.id = businessId := by simpa using hb
  unfold updateBusinessScore
  rw [List.find?_map]
  have hpred : ((fun q : Business => decide (q.id = businessId)) ∘
      (fun q : Business => if q.id = businessId then { q with trustScore := v } else q)) =
      (fun q : Business => decide (q.id = businessId)) := by
    funext q
    by_cases hq : q.id = businessId <;> simp [hq, Function.comp]
  rw [hpred, h]
  simp [hbid]

/-- The crypto rule table never reads the stored trustScore column. -/
lemma evalRules_crypto_trustScore (p : CryptoProject) (v : Int) (context : EvaluationContext) :
    evalRules cryptoRules { p with trustScore := v } context = evalRules cryptoRules p context := by
  cases p
  rfl

lemma evalRules_business_trustScore (b : Business) (v : Int) (context : EvaluationContext) :
    evalRules businessRules { b with trustScore := v } context =
      evalRules businessRules b context := by
  cases b
  rfl

lemma buildProjectContext_trustScore (s : EngineState) (p : CryptoProject) (v : Int) :
    buildProjectContext s { p with trustScore := v } = buildProjectContext s p := by
  cases p
  rfl

lemma buildBusinessContext_trustScore (s : EngineState) (b : Business) (v : Int) :
    buildBusinessContext s { b with trustScore := v } = buildBusinessContext s b := by
  cases b
  rfl

lemma scoreCalcAudits_projectCalcState (s : EngineState) (projectId : String)
    (p : CryptoProject) :
    scoreCalcAudits (projectCalcState s projectId p) = scoreCalcAudits s + 1 := by
  simp [scoreCalcAudits, projectCalcState, List.filter_append]

lemma scoreCalcAudits_businessCalcState (s : EngineState) (businessId : String)
    (b : Business) :
    scoreCalcAudits (businessCalcState s businessId b) = scoreCalcAudits s + 1 := by
  simp [scoreCalcAudits, businessCalcState, List.filter_append]

-- ===========================================================================
-- Concrete fixtures used by witnesses and counterexamples
-- ===========================================================================

/-- A project with every nullable attribute absent. -/
def blankProject (id userId : String) : CryptoProject :=
  { id := id, userId := userId, name := "", description := none, category := none,
    totalSupply := none, teamAllocationPercent := none, teamVestingMonths := none,
    liquidityLockMonths := none, auditProvider := none, auditReportUrl := none,
    whitepaper := none, twitter := none, discord := none, telegram := none,
    contractVerified := false, trustScore := 50 }

/-- A business with every nullable attribute absent and no KYB. -/
def blankBusiness (id userId : String) : Business :=
  { id := id, userId := userId, legalName := "", entityType := none,
    jurisdiction := none, description := none, industry := none,
    businessEmail := none, website := none, ein := none,
    registrationNumber := none, kybLevel := KYBLevel.NONE, trustScore := 50 }

def emptyState : EngineState :=
  { projects := [], businesses := [], identities := [], projectDocuments := [],
    businessDocuments := [], founders := [], events := [], auditLog := [] }

/-- One blank project and one blank business, no ledger, no audit lines. -/
def baseState : EngineState :=
  { emptyState with
      projects := [blankProject "p1" "u1"]
      businesses := [blankBusiness "b1" "u1"] }

-- ===========================================================================
-- Claims
-- ===========================================================================

/-- C5: getTier maps scores to the five tiers by the fixed descending
thresholds 85/70/50/30/0: every in-range integer score of at least 85 gives
EXCELLENT, 70 to 84 gives GOOD, 50 to 69 gives NEUTRAL, 30 to 49 gives
CAUTION, and 0 to 29 gives HIGH_RISK; in particular at the nine boundary
scores listed in the claim. -/
theorem tier_thresholds_C5 :
    (∀ n : Int,
      (85 ≤ n → n ≤ 100 → getTier n = TrustScoreTier.EXCELLENT) ∧
      (70 ≤ n → n ≤ 84 → getTier n = TrustScoreTier.GOOD) ∧
      (50 ≤ n → n ≤ 69 → getTier n = TrustScoreTier.NEUTRAL) ∧
      (30 ≤ n → n ≤ 49 → getTier n = TrustScoreTier.CAUTION) ∧
      (0 ≤ n → n ≤ 29 → getTier n = TrustScoreTier.HIGH_RISK)) ∧
    getTier 85 = TrustScoreTier.EXCELLENT ∧ getTier 84 = TrustScoreTier.GOOD ∧
    getTier 70 = TrustScoreTier.GOOD ∧ getTier 69 = TrustScoreTier.NEUTRAL ∧
    getTier 50 = TrustScoreTier.NEUTRAL ∧ getTier 49 = TrustScoreTier.CAUTION ∧
    getTier 30 = TrustScoreTier.CAUTION ∧ getTier 29 = TrustScoreTier.HIGH_RISK ∧
    getTier 0 = TrustScoreTier.HIGH_RISK := by
  refine ⟨fun n => ?_, by decide, by decide, by decide, by decide, by decide,
    by decide, by decide, by decide, by decide⟩
  unfold getTier
  refine ⟨fun h1 h2 => ?_, fun h1 h2 => ?_, fun h1 h2 => ?_, fun h1 h2 => ?_,
    fun h1 h2 => ?_⟩ <;> split_ifs <;> first | rfl | omega

/-- C5 witness: the range clauses instantiated at 85. -/
theorem tier_thresholds_C5_witness :
    getTier 85 = TrustScoreTier.EXCELLENT ∧ getTier 29 = TrustScoreTier.HIGH_RISK :=
  ⟨(tier_thresholds_C5.1 85).1 (by norm_num) (by norm_num),
   (tier_thresholds_C5.1 29).2.2.2.2 (by norm_num) (by norm_num)⟩

/-- C10: the tier classifier is total over all integers: every score above
100 yields EXCELLENT with its fixed description and every score below 0
yields HIGH_RISK with its fixed description, without error. -/
theorem tier_total_C10 :
    ∀ n : Int,
      (100 < n → getTierInfo n = (TrustScoreTier.EXCELLENT,
        "Highly Trusted - This entity has demonstrated exceptional trustworthiness")) ∧
      (n < 0 → getTierInfo n = (TrustScoreTier.HIGH_RISK,
        "High Risk - Significant trust factors are missing or concerning")) := by
  intro n
  unfold getTierInfo getTier
  refine ⟨fun h => ?_, fun h => ?_⟩ <;> split_ifs <;> first | rfl | omega

/-- C10 witness: instantiated at 101 and -1. -/
theorem tier_total_C10_witness :
    getTierInfo 101 = (TrustScoreTier.EXCELLENT,
      "Highly Trusted - This entity has demonstrated exceptional trustworthiness") ∧
    getTierInfo (-1) = (TrustScoreTier.HIGH_RISK,
      "High Risk - Significant trust factors are missing or concerning") :=
  ⟨(tier_total_C10 101).1 (by norm_num), (tier_total_C10 (-1)).2 (by norm_num)⟩

/-- C9: when the entity id does not resolve, recompute raises the
descriptive not-found error before any write: the returned state is exactly
the input state (no score write, no ledger write) and the error propagates
to the caller. -/
theorem recompute_notFound_C9 :
    (∀ (s : EngineState) (projectId : String), findProject s projectId = none →
      calculateProjectScore s projectId = (s, Except.error "Project not found")) ∧
    (∀ (s : EngineState) (businessId : String), findBusiness s businessId = none →
      calculateBusinessScore s businessId = (s, Except.error "Business not found")) :=
  ⟨fun s pid h => calculateProjectScore_notFound s pid h,
   fun s bid h => calculateBusinessScore_notFound s bid h⟩

/-- C9 witness: an id that resolves to nothing in the empty store. -/
theorem recompute_notFound_C9_witness :
    calculateProjectScore emptyState "nope" = (emptyState, Except.error "Project not found") ∧
    calculateBusinessScore emptyState "nope" = (emptyState, Except.error "Business not found") :=
  ⟨recompute_notFound_C9.1 emptyState "nope" rfl,
   recompute_notFound_C9.2 emptyState "nope" rfl⟩

/-- C6: every successful recomputation returns a currentScore within 0..100
and persists exactly that value into the trustScore column of the entity
row with the requested id. -/
theorem score_range_C6 :
    (∀ (s : EngineState) (projectId : String) (s1 : EngineState) (r1 : TrustScoreResult),
      calculateProjectScore s projectId = (s1, Except.ok r1) →
      0 ≤ r1.currentScore ∧ r1.currentScore ≤ 100 ∧
      ∀ q ∈ s1.projects, q.id = projectId → q.trustScore = r1.currentScore) ∧
    (∀ (s : EngineState) (businessId : String) (s1 : EngineState) (r1 : TrustScoreResult),
      calculateBusinessScore s businessId = (s1, Except.ok r1) →
      0 ≤ r1.currentScore ∧ r1.currentScore ≤ 100 ∧
      ∀ q ∈ s1.businesses, q.id = businessId → q.trustScore = r1.currentScore) := by
  constructor
  · intro s pid s1 r1 h
    cases hfind : findProject s pid with
    | none =>
        rw [calculateProjectScore_notFound s pid hfind] at h
        simp at h
    | some p =>
        rw [calculateProjectScore_ok s pid p hfind] at h
        injection h with h1 h2
        injection h2 with h3
        subst h1
        subst h3
        refine ⟨?_, ?_, ?_⟩
        · show 0 ≤ projectTotalScore s pid p
          unfold projectTotalScore
          exact clampScore_nonneg _
        · show projectTotalScore s pid p ≤ 100
          unfold projectTotalScore
          exact clampScore_le _
        · intro q hq hqid
          simp only [projectCalcState, updateProjectScore] at hq
          obtain ⟨a, _, rfl⟩ := List.mem_map.mp hq
          by_cases ha : a.id = pid
          · simp [ha, projectCalcResult]
          · simp [ha] at hqid
  · intro s bid s1 r1 h
    cases hfind : findBusiness s bid with
    | none =>
        rw [calculateBusinessScore_notFound s bid hfind] at h
        simp at h
    | some b =>
        rw [calculateBusinessScore_ok s bid b hfind] at h
        injection h with h1 h2
        injection h2 with h3
        subst h1
        subst h3
        refine ⟨?_, ?_, ?_⟩
        · show 0 ≤ businessTotalScore s bid b
          unfold businessTotalScore
          exact clampScore_nonneg _
        · show businessTotalScore s bid b ≤ 100
          unfold businessTotalScore
          exact clampScore_le _
        · intro q hq hqid
          simp only [businessCalcState, updateBusinessScore] at hq
          obtain ⟨a, _, rfl⟩ := List.mem_map.mp hq
          by_cases ha : a.id = bid
          · simp [ha, businessCalcResult]
          · simp [ha] at hqid

/-- C6 witness: the blank project of the base fixture. -/
theorem score_range_C6_witness :
    0 ≤ (projectCalcResult baseState "p1" (blankProject "p1" "u1")).currentScore ∧
    (projectCalcResult baseState "p1" (blankProject "p1" "u1")).currentScore ≤ 100 ∧
    ∀ q ∈ (projectCalcState baseState "p1" (blankProject "p1" "u1")).projects,
      q.id = "p1" →
      q.trustScore = (projectCalcResult baseState "p1" (blankProject "p1" "u1")).currentScore :=
  score_range_C6.1 baseState "p1" _ _ (calculateProjectScore_ok baseState "p1" _ rfl)

/-- C2: for an entity with no ledger events, recompute returns the base
score 50 plus the sum of the points awarded by each rule of the entity
kind's rule table, clamped to 0..100. -/
theorem no_ledger_score_C2 :
    (∀ (s : EngineState) (projectId : String) (p : CryptoProject),
      findProject s projectId = some p →
      projectEvents s projectId = [] →
      ∃ s1 r1, calculateProjectScore s projectId = (s1, Except.ok r1) ∧
        r1.currentScore = clampScore (config.trustScore.baseScore +
          (cryptoRules.map (fun ru => ru.evaluate p (buildProjectContext s p))).sum)) ∧
    (∀ (s : EngineState) (businessId : String) (b : Business),
      findBusiness s businessId = some b →
      businessEvents s businessId = [] →
      ∃ s1 r1, calculateBusinessScore s businessId = (s1, Except.ok r1) ∧
        r1.currentScore = clampScore (config.trustScore.baseScore +
          (businessRules.map (fun ru => ru.evaluate b (buildBusinessContext s b))).sum)) := by
  constructor
  · intro s pid p hfind hev
    refine ⟨_, _, calculateProjectScore_ok s pid p hfind, ?_⟩
    show projectTotalScore s pid p = _
    have hpen : projectPenaltyEvents s pid = [] := by
      unfold projectPenaltyEvents
      rw [List.filter_eq_nil_iff]
      intro e he
      have hne := List.filter_eq_nil_iff.mp hev e he
      simp at hne ⊢
      intro hpid
      exact absurd hpid hne
    unfold projectTotalScore
    rw [hpen, List.foldl_nil, evalRules_fst]
  · intro s bid b hfind hev
    refine ⟨_, _, calculateBusinessScore_ok s bid b hfind, ?_⟩
    show businessTotalScore s bid b = _
    have hpen : businessPenaltyEvents s bid = [] := by
      unfold businessPenaltyEvents
      rw [List.filter_eq_nil_iff]
      intro e he
      have hne := List.filter_eq_nil_iff.mp hev e he
      simp at hne ⊢
      intro hbid
      exact absurd hbid hne
    unfold businessTotalScore
    rw [hpen, List.foldl_nil, evalRules_fst]

/-- C2 witness: the base fixture has an empty ledger. -/
theorem no_ledger_score_C2_witness :
    ∃ s1 r1, calculateProjectScore baseState "p1" = (s1, Except.ok r1) ∧
      r1.currentScore = clampScore (config.trustScore.baseScore +
        (cryptoRules.map (fun ru => ru.evaluate (blankProject "p1" "u1")
          (buildProjectContext baseState (blankProject "p1" "u1")))).sum) :=
  no_ledger_score_C2.1 baseState "p1" (blankProject "p1" "u1") rfl rfl

/-- C1: recompute adds to the base-plus-rules total exactly the points of
the ledger events of the entity with points below zero, and appending a
positive-point ledger event (for instance a positive manual adjustment not
mirrored by any rule) leaves currentScore unchanged on the next recompute
of the same entity. -/
theorem negative_only_ledger_C1 :
    (∀ (s : EngineState) (projectId : String) (p : CryptoProject) (s1 : EngineState)
        (r1 : TrustScoreResult),
      calculateProjectScore s projectId = (s1, Except.ok r1) →
      findProject s projectId = some p →
      r1.currentScore = clampScore (config.trustScore.baseScore +
        (cryptoRules.map (fun ru => ru.evaluate p (buildProjectContext s p))).sum +
        ((s.events.filter (fun e => decide (e.projectId = some projectId ∧ e.points < 0))).map
          (fun e => e.points)).sum)) ∧
    (∀ (s : EngineState) (projectId : String) (ev : TrustScoreEvent) (s1 : EngineState)
        (r1 : TrustScoreResult),
      0 < ev.points →
      calculateProjectScore s projectId = (s1, Except.ok r1) →
      ∃ s2 r2, calculateProjectScore { s with events := s.events ++ [ev] } projectId =
        (s2, Except.ok r2) ∧ r2.currentScore = r1.currentScore) ∧
    (∀ (s : EngineState) (businessId : String) (b : Business) (s1 : EngineState)
        (r1 : TrustScoreResult),
      calculateBusinessScore s businessId = (s1, Except.ok r1) →
      findBusiness s businessId = some b →
      r1.currentScore = clampScore (config.trustScore.baseScore +
        (businessRules.map (fun ru => ru.evaluate b (buildBusinessContext s b))).sum +
        ((s.events.filter (fun e => decide (e.businessId = some businessId ∧ e.points < 0))).map
          (fun e => e.points)).sum)) ∧
    (∀ (s : EngineState) (businessId : String) (ev : TrustScoreEvent) (s1 : EngineState)
        (r1 : TrustScoreResult),
      0 < ev.points →
      calculateBusinessScore s businessId = (s1, Except.ok r1) →
      ∃ s2 r2, calculateBusinessScore { s with events := s.events ++ [ev] } businessId =
        (s2, Except.ok r2) ∧ r2.currentScore = r1.currentScore) := by
  refine ⟨?_, ?_, ?_, ?_⟩
  · intro s pid p s1 r1 h hfind
    rw [calculateProjectScore_ok s pid p hfind] at h
    injection h with h1 h2
    injection h2 with h3
    subst h3
    show projectTotalScore s pid p = _
    unfold projectTotalScore
    rw [foldl_add_points, evalRules_fst]
    unfold projectPenaltyEvents
    rfl
  · intro s pid ev s1 r1 hpos h
    cases hfind : findProject s pid with
    | none =>
        rw [calculateProjectScore_notFound s pid hfind] at h
        simp at h
    | some p =>
        have hfind2 : findProject { s with events := s.events ++ [ev] } pid = some p := hfind
        refine ⟨_, _, calculateProjectScore_ok _ pid p hfind2, ?_⟩
        rw [calculateProjectScore_ok s pid p hfind] at h
        injection h with h1 h2
        injection h2 with h3
        subst h3
        show projectTotalScore _ pid p = projectTotalScore s pid p
        have hsingle :
            List.filter (fun e => decide (e.projectId = some pid ∧ e.points < 0)) [ev] = [] := by
          simp
          intro _
          omega
        have hpe : projectPenaltyEvents { s with events := s.events ++ [ev] } pid =
            projectPenaltyEvents s pid := by
          unfold projectPenaltyEvents
          show List.filter _ (s.events ++ [ev]) = _
          rw [List.filter_append, hsingle, List.append_nil]
        unfold projectTotalScore
        rw [hpe]
        rfl
  · intro s bid b s1 r1 h hfind
    rw [calculateBusinessScore_ok s bid b hfind] at h
    injection h with h1 h2
    injection h2 with h3
    subst h3
    show businessTotalScore s bid b = _
    unfold businessTotalScore
    rw [foldl_add_points, evalRules_fst]
    unfold businessPenaltyEvents
    rfl
  · intro s bid ev s1 r1 hpos h
    cases hfind : findBusiness s bid with
    | none =>
        rw [calculateBusinessScore_notFound s bid hfind] at h
        simp at h
    | some b =>
        have hfind2 : findBusiness { s with events := s.events ++ [ev] } bid = some b := hfind
        refine ⟨_, _, calculateBusinessScore_ok _ bid b hfind2, ?_⟩
        rw [calculateBusinessScore_ok s bid b hfind] at h
        injection h with h1 h2
        injection h2 with h3
        subst h3
        show businessTotalScore _ bid b = businessTotalScore s bid b
        have hsingle :
            List.filter (fun e => decide (e.businessId = some bid ∧ e.points < 0)) [ev] = [] := by
          simp
          intro _
          omega
        have hpe : businessPenaltyEvents { s with events := s.events ++ [ev] } bid =
            businessPenaltyEvents s bid := by
          unfold businessPenaltyEvents
          show List.filter _ (s.events ++ [ev]) = _
          rw [List.filter_append, hsingle, List.append_nil]
        unfold businessTotalScore
        rw [hpe]
        rfl

/-- A positive manual adjustment event aimed at the blank project. -/
def posEvent : TrustScoreEvent :=
  { projectId := some "p1", businessId := none,
    eventType := TrustScoreEventType.MANUAL_ADJUSTMENT, points := 5,
    reason := "manual bonus", triggeredBy := some "admin" }

/-- C1 witness: the exact-sum clause and the no-effect clause instantiated
on the base fixture with a positive manual adjustment. -/
theorem negative_only_ledger_C1_witness :
    ((projectCalcResult baseState "p1" (blankProject "p1" "u1")).currentScore =
      clampScore (config.trustScore.baseScore +
        (cryptoRules.map (fun ru => ru.evaluate (blankProject "p1" "u1")
          (buildProjectContext baseState (blankProject "p1" "u1")))).sum +
        ((baseState.events.filter
            (fun e => decide (e.projectId = some "p1" ∧ e.points < 0))).map
          (fun e => e.points)).sum)) ∧
    (∃ s2 r2, calculateProjectScore { baseState with events := baseState.events ++ [posEvent] }
        "p1" = (s2, Except.ok r2) ∧
      r2.currentScore = (projectCalcResult baseState "p1" (blankProject "p1" "u1")).currentScore) :=
  ⟨negative_only_ledger_C1.1 baseState "p1" (blankProject "p1" "u1") _ _
      (calculateProjectScore_ok baseState "p1" _ rfl) rfl,
   negative_only_ledger_C1.2.1 baseState "p1" posEvent _ _ (by decide)
      (calculateProjectScore_ok baseState "p1" _ rfl)⟩

/-- C4: the two liquidity-lock rules of the crypto rule table never double
count: at a lock of at least 12 months their combined points are exactly
the configured full 12-month bonus (the incremental 12-month rule tops the
6-month rule up to it), which is not the 6-month bonus added to a separate
full 12-month bonus; and a longer lock never yields fewer combined
liquidity points. -/
theorem liquidity_lock_C4 :
    cryptoRules[1]? = some liquidityLock6Rule ∧
    cryptoRules[2]? = some liquidityLock12Rule ∧
    (∀ (p : CryptoProject) (context : EvaluationContext) (m : Int),
      p.liquidityLockMonths = some m → 12 ≤ m →
      liquidityLock6Rule.evaluate p context + liquidityLock12Rule.evaluate p context =
        config.trustScore.crypto.liquidityLock12Months) ∧
    config.trustScore.crypto.liquidityLock12Months ≠
      config.trustScore.crypto.liquidityLock6Months +
        config.trustScore.crypto.liquidityLock12Months ∧
    (∀ (p : CryptoProject) (context : EvaluationContext) (m m' : Int), m ≤ m' →
      liquidityLock6Rule.evaluate { p with liquidityLockMonths := some m } context +
        liquidityLock12Rule.evaluate { p with liquidityLockMonths := some m } context ≤
      liquidityLock6Rule.evaluate { p with liquidityLockMonths := some m' } context +
        liquidityLock12Rule.evaluate { p with liquidityLockMonths := some m' } context) := by
  refine ⟨rfl, rfl, ?_, by decide, ?_⟩
  · intro p context m hm h12
    simp only [liquidityLock6Rule, liquidityLock12Rule, hm,
      config.trustScore.crypto.liquidityLock6Months,
      config.trustScore.crypto.liquidityLock12Months]
    split_ifs <;> omega
  · intro p context m m' hmm
    simp only [liquidityLock6Rule, liquidityLock12Rule,
      config.trustScore.crypto.liquidityLock6Months,
      config.trustScore.crypto.liquidityLock12Months]
    split_ifs <;> omega

/-- C4 witness: a 12-month lock earns exactly 20 points, and moving from 6
to 12 months does not decrease the combined liquidity points. -/
theorem liquidity_lock_C4_witness :
    (liquidityLock6Rule.evaluate
        { blankProject "p1" "u1" with liquidityLockMonths := some 12 } {} +
      liquidityLock12Rule.evaluate
        { blankProject "p1" "u1" with liquidityLockMonths := some 12 } {} =
      config.trustScore.crypto.liquidityLock12Months) ∧
    (liquidityLock6Rule.evaluate
        { blankProject "p1" "u1" with liquidityLockMonths := some 6 } {} +
      liquidityLock12Rule.evaluate
        { blankProject "p1" "u1" with liquidityLockMonths := some 6 } {} ≤
      liquidityLock6Rule.evaluate
        { blankProject "p1" "u1" with liquidityLockMonths := some 12 } {} +
      liquidityLock12Rule.evaluate
        { blankProject "p1" "u1" with liquidityLockMonths := some 12 } {}) :=
  ⟨liquidity_lock_C4.2.2.1 _ {} 12 rfl (by norm_num),
   liquidity_lock_C4.2.2.2.2 (blankProject "p1" "u1") {} 6 12 (by norm_num)⟩

/-- The score recomputed right after a recompute of the same project is the
same: neither the updated trustScore column nor the audit line feeds back. -/
lemma projectTotalScore_after_calc (s : EngineState) (pid : String) (p : CryptoProject)
    (v : Int) :
    projectTotalScore (projectCalcState s pid p) pid { p with trustScore := v } =
      projectTotalScore s pid p := by
  have hctx : buildProjectContext (projectCalcState s pid p) { p with trustScore := v } =
      buildProjectContext s p := by
    have h1 : buildProjectContext (projectCalcState s pid p) { p with trustScore := v } =
        buildProjectContext s { p with trustScore := v } := rfl
    rw [h1, buildProjectContext_trustScore]
  unfold projectTotalScore
  rw [hctx, evalRules_crypto_trustScore]
  rfl

lemma businessTotalScore_after_calc (s : EngineState) (bid : String) (b : Business)
    (v : Int) :
    businessTotalScore (businessCalcState s bid b) bid { b with trustScore := v } =
      businessTotalScore s bid b := by
  have hctx : buildBusinessContext (businessCalcState s bid b) { b with trustScore := v } =
      buildBusinessContext s b := by
    have h1 : buildBusinessContext (businessCalcState s bid b) { b with trustScore := v } =
        buildBusinessContext s { b with trustScore := v } := rfl
    rw [h1, buildBusinessContext_trustScore]
  unfold businessTotalScore
  rw [hctx, evalRules_business_trustScore]
  rfl

/-- C3: recompute is deterministic and idempotent in its score output: a
successful recompute followed by a second recompute of the same entity with
no other mutation in between returns the identical currentScore (the state
write of the first call — the trustScore column and the audit log — does
not feed back into the computation). -/
theorem recompute_idempotent_C3 :
    (∀ (s : EngineState) (projectId : String) (s1 : EngineState) (r1 : TrustScoreResult),
      calculateProjectScore s projectId = (s1, Except.ok r1) →
      ∃ s2 r2, calculateProjectScore s1 projectId = (s2, Except.ok r2) ∧
        r2.currentScore = r1.currentScore) ∧
    (∀ (s : EngineState) (businessId : String) (s1 : EngineState) (r1 : TrustScoreResult),
      calculateBusinessScore s businessId = (s1, Except.ok r1) →
      ∃ s2 r2, calculateBusinessScore s1 businessId = (s2, Except.ok r2) ∧
        r2.currentScore = r1.currentScore) := by
  constructor
  · intro s pid s1 r1 h
    cases hfind : findProject s pid with
    | none =>
        rw [calculateProjectScore_notFound s pid hfind] at h
        simp at h
    | some p =>
        rw [calculateProjectScore_ok s pid p hfind] at h
        injection h with h1 h2
        injection h2 with h3
        subst h1
        subst h3
        have hfind2 : findProject (projectCalcState s pid p) pid =
            some { p with trustScore := projectTotalScore s pid p } :=
          find?_updateProjectScore s.projects pid _ p hfind
        refine ⟨_, _, calculateProjectScore_ok _ pid _ hfind2, ?_⟩
        exact projectTotalScore_after_calc s pid p _
  · intro s bid s1 r1 h
    cases hfind : findBusiness s bid with
    | none =>
        rw [calculateBusinessScore_notFound s bid hfind] at h
        simp at h
    | some b =>
        rw [calculateBusinessScore_ok s bid b hfind] at h
        injection h with h1 h2
        injection h2 with h3
        subst h1
        subst h3
        have hfind2 : findBusiness (businessCalcState s bid b) bid =
            some { b with trustScore := businessTotalScore s bid b } :=
          find?_updateBusinessScore s.businesses bid _ b hfind
        refine ⟨_, _, calculateBusinessScore_ok _ bid _ hfind2, ?_⟩
        exact businessTotalScore_after_calc s bid b _

/-- C3 witness: recomputing the blank project right after a first recompute
returns the same currentScore. -/
theorem recompute_idempotent_C3_witness :
    ∃ s2 r2, calculateProjectScore (projectCalcState baseState "p1" (blankProject "p1" "u1"))
        "p1" = (s2, Except.ok r2) ∧
      r2.currentScore = (projectCalcResult baseState "p1" (blankProject "p1" "u1")).currentScore :=
  recompute_idempotent_C3.1 baseState "p1" _ _
    (calculateProjectScore_ok baseState "p1" _ rfl)

-- ===========================================================================
-- recordEvent / fan-out effect lemmas
-- ===========================================================================

lemma recordEvent_project_eq (s : EngineState) (entityId : String)
    (et : TrustScoreEventType) (pts : Int) (rsn : String) (tb : Option String) :
    recordEvent s entityId EntityType.project et pts rsn tb =
      ((calculateProjectScore
          (withEvent s (recordedEvent entityId EntityType.project et pts rsn tb)) entityId).1,
       (calculateProjectScore
          (withEvent s (recordedEvent entityId EntityType.project et pts rsn tb)) entityId).2.map
         (fun _ => ())) := rfl

lemma recordEvent_business_eq (s : EngineState) (entityId : String)
    (et : TrustScoreEventType) (pts : Int) (rsn : String) (tb : Option String) :
    recordEvent s entityId EntityType.business et pts rsn tb =
      ((calculateBusinessScore
          (withEvent s (recordedEvent entityId EntityType.business et pts rsn tb)) entityId).1,
       (calculateBusinessScore
          (withEvent s (recordedEvent entityId EntityType.business et pts rsn tb)) entityId).2.map
         (fun _ => ())) := rfl

/-- The audit line a recomputation of the given project writes: one
TRUST_SCORE / SCORE_CALCULATED record whose message names exactly that
project id together with the freshly computed total. -/
def projectCalcAudit (projectId : String) (a : AuditRecord) : Prop :=
  a.category = "TRUST_SCORE" ∧ a.action = "SCORE_CALCULATED" ∧
  ∃ t : Int, a.message = "Calculated trust score for project " ++ projectId ++ ": " ++ toString t

def businessCalcAudit (businessId : String) (a : AuditRecord) : Prop :=
  a.category = "TRUST_SCORE" ∧ a.action = "SCORE_CALCULATED" ∧
  ∃ t : Int, a.message = "Calculated trust score for business " ++ businessId ++ ": " ++ toString t

lemma recordEvent_project_ok (s : EngineState) (entityId : String)
    (et : TrustScoreEventType) (pts : Int) (rsn : String) (tb : Option String)
    (h : entityId ∈ projectIds s) :
    ∃ s1, recordEvent s entityId EntityType.project et pts rsn tb = (s1, Except.ok ()) ∧
      s1.events = s.events ++ [recordedEvent entityId EntityType.project et pts rsn tb] ∧
      (∃ a, s1.auditLog = s.auditLog ++ [a] ∧ projectCalcAudit entityId a) ∧
      projectIds s1 = projectIds s ∧
      s1.businesses = s.businesses := by
  obtain ⟨p, hpmem, hpid⟩ := List.mem_map.mp h
  have hsome : ((withEvent s (recordedEvent entityId EntityType.project et pts rsn tb)).projects.find?
      (fun q => q.id = entityId)).isSome := by
    rw [List.find?_isSome]
    exact ⟨p, hpmem, by simp [hpid]⟩
  obtain ⟨p', hfind⟩ := Option.isSome_iff_exists.mp hsome
  have hfind' : findProject (withEvent s (recordedEvent entityId EntityType.project et pts rsn tb))
      entityId = some p' := hfind
  refine ⟨projectCalcState (withEvent s (recordedEvent entityId EntityType.project et pts rsn tb))
    entityId p', ?_, rfl, ?_, ?_, rfl⟩
  · rw [recordEvent_project_eq, calculateProjectScore_ok _ entityId p' hfind']
    rfl
  · exact ⟨_, rfl, rfl, rfl,
      ⟨projectTotalScore (withEvent s (recordedEvent entityId EntityType.project et pts rsn tb))
        entityId p', rfl⟩⟩
  · show (updateProjectScore
        (withEvent s (recordedEvent entityId EntityType.project et pts rsn tb)).projects entityId
        _).map (fun p => p.id) = projectIds s
    rw [updateProjectScore_ids]
    rfl

lemma recordEvent_business_ok (s : EngineState) (entityId : String)
    (et : TrustScoreEventType) (pts : Int) (rsn : String) (tb : Option String)
    (h : entityId ∈ businessIds s) :
    ∃ s1, recordEvent s entityId EntityType.business et pts rsn tb = (s1, Except.ok ()) ∧
      s1.events = s.events ++ [recordedEvent entityId EntityType.business et pts rsn tb] ∧
      (∃ a, s1.auditLog = s.auditLog ++ [a] ∧ businessCalcAudit entityId a) ∧
      businessIds s1 = businessIds s ∧
      s1.projects = s.projects := by
  obtain ⟨b, hbmem, hbid⟩ := List.mem_map.mp h
  have hsome : ((withEvent s (recordedEvent entityId EntityType.business et pts rsn tb)).businesses.find?
      (fun q => q.id = entityId)).isSome := by
    rw [List.find?_isSome]
    exact ⟨b, hbmem, by simp [hbid]⟩
  obtain ⟨b', hfind⟩ := Option.isSome_iff_exists.mp hsome
  have hfind' : findBusiness (withEvent s (recordedEvent entityId EntityType.business et pts rsn tb))
      entityId = some b' := hfind
  refine ⟨businessCalcState (withEvent s (recordedEvent entityId EntityType.business et pts rsn tb))
    entityId b', ?_, rfl, ?_, ?_, rfl⟩
  · rw [recordEvent_business_eq, calculateBusinessScore_ok _ entityId b' hfind']
    rfl
  · exact ⟨_, rfl, rfl, rfl,
      ⟨businessTotalScore (withEvent s (recordedEvent entityId EntityType.business et pts rsn tb))
        entityId b', rfl⟩⟩
  · show (updateBusinessScore
        (withEvent s (recordedEvent entityId EntityType.business et pts rsn tb)).businesses entityId
        _).map (fun b => b.id) = businessIds s
    rw [updateBusinessScore_ids]
    rfl

lemma identityFanoutProjects_ok :
    ∀ (ps : List CryptoProject) (s : EngineState),
      (∀ p ∈ ps, p.id ∈ projectIds s) →
      ∃ s1, identityFanoutProjects s ps = (s1, Except.ok ()) ∧
        s1.events = s.events ++ ps.map (fun p => recordedEvent p.id EntityType.project
          TrustScoreEventType.IDENTITY_VERIFIED config.trustScore.crypto.identityVerified
          "Team lead completed identity verification" (some "system")) ∧
        (∃ audits, s1.auditLog = s.auditLog ++ audits ∧
          List.Forall₂ (fun p a => projectCalcAudit p.id a) ps audits) ∧
        projectIds s1 = projectIds s ∧
        s1.businesses = s.businesses := by
  intro ps
  induction ps with
  | nil => exact fun s _ => ⟨s, rfl, by simp, ⟨[], by simp, List.Forall₂.nil⟩, rfl, rfl⟩
  | cons p rest ih =>
      intro s h
      obtain ⟨s1, hre, hev, ⟨a, haud, ha⟩, hids, hbus⟩ :=
        recordEvent_project_ok s p.id TrustScoreEventType.IDENTITY_VERIFIED
          config.trustScore.crypto.identityVerified
          "Team lead completed identity verification" (some "system")
          (h p (List.mem_cons_self p rest))
      obtain ⟨s2, hfan, hev2, ⟨audits, haud2, has⟩, hids2, hbus2⟩ := ih s1 (fun q hq => by
        rw [hids]
        exact h q (List.mem_cons_of_mem p hq))
      refine ⟨s2, ?_, ?_, ⟨a :: audits, ?_, List.Forall₂.cons ha has⟩,
        hids2.trans hids, hbus2.trans hbus⟩
      · have hstep : identityFanoutProjects s (p :: rest) =
            match recordEvent s p.id EntityType.project TrustScoreEventType.IDENTITY_VERIFIED
              config.trustScore.crypto.identityVerified
              "Team lead completed identity verification" (some "system") with
            | (s1, Except.ok _) => identityFanoutProjects s1 rest
            | (s1, Except.error e) => (s1, Except.error e) := rfl
        rw [hstep, hre]
        exact hfan
      · rw [hev2, hev]
        simp
      · rw [haud2, haud]
        simp

lemma identityFanoutBusinesses_ok :
    ∀ (bs : List Business) (s : EngineState),
      (∀ b ∈ bs, b.id ∈ businessIds s) →
      ∃ s1, identityFanoutBusinesses s bs = (s1, Except.ok ()) ∧
        s1.events = s.events ++ bs.map (fun b => recordedEvent b.id EntityType.business
          TrustScoreEventType.IDENTITY_VERIFIED config.trustScore.business.kybBasic
          "Business owner completed identity verification" (some "system")) ∧
        (∃ audits, s1.auditLog = s.auditLog ++ audits ∧
          List.Forall₂ (fun b a => businessCalcAudit b.id a) bs audits) ∧
        businessIds s1 = businessIds s ∧
        s1.projects = s.projects := by
  intro bs
  induction bs with
  | nil => exact fun s _ => ⟨s, rfl, by simp, ⟨[], by simp, List.Forall₂.nil⟩, rfl, rfl⟩
  | cons b rest ih =>
      intro s h
      obtain ⟨s1, hre, hev, ⟨a, haud, ha⟩, hids, hproj⟩ :=
        recordEvent_business_ok s b.id TrustScoreEventType.IDENTITY_VERIFIED
          config.trustScore.business.kybBasic
          "Business owner completed identity verification" (some "system")
          (h b (List.mem_cons_self b rest))
      obtain ⟨s2, hfan, hev2, ⟨audits, haud2, has⟩, hids2, hproj2⟩ := ih s1 (fun q hq => by
        rw [hids]
        exact h q (List.mem_cons_of_mem b hq))
      refine ⟨s2, ?_, ?_, ⟨a :: audits, ?_, List.Forall₂.cons ha has⟩,
        hids2.trans hids, hproj2.trans hproj⟩
      · have hstep : identityFanoutBusinesses s (b :: rest) =
            match recordEvent s b.id EntityType.business TrustScoreEventType.IDENTITY_VERIFIED
              config.trustScore.business.kybBasic
              "Business owner completed identity verification" (some "system") with
            | (s1, Except.ok _) => identityFanoutBusinesses s1 rest
            | (s1, Except.error e) => (s1, Except.error e) := rfl
        rw [hstep, hre]
        exact hfan
      · rw [hev2, hev]
        simp
      · rw [haud2, haud]
        simp

/-- Audit lines matched one-to-one with entities by a calculation predicate
all carry the SCORE_CALCULATED action, so the SCORE_CALCULATED filter keeps
every one of them. -/
lemma filter_scoreCalc_of_forall₂ {α : Type} {R : α → AuditRecord → Prop}
    (hR : ∀ x a, R x a → a.action = "SCORE_CALCULATED") :
    ∀ {xs : List α} {audits : List AuditRecord}, List.Forall₂ R xs audits →
      audits.filter (fun a => a.action = "SCORE_CALCULATED") = audits := by
  intro xs audits h
  induction h with
  | nil => rfl
  | cons h1 _ ih => simp [List.filter_cons, hR _ _ h1, ih]

/-- C8: onIdentityVerified fans out to every entity owned by the user, one
LedgerEvent and one recomputation per entity: the rows appended to the
ledger are exactly one IDENTITY_VERIFIED event per owned project followed
by one per owned business, each carrying that entity's own id, and the
audit log grows by exactly one SCORE_CALCULATED line per owned entity,
matched one-to-one and in order (List.Forall₂) with the owned projects and
businesses and naming that entity's id in its message; in total N+M ledger
events and N+M recomputations for a user owning N projects and M
businesses. -/
theorem identity_fanout_C8 :
    ∀ (s : EngineState) (userId : String),
      ∃ s1, onIdentityVerified s userId = (s1, Except.ok ()) ∧
        s1.events = s.events ++
          (s.projects.filter (fun p => p.userId = userId)).map (fun p =>
            recordedEvent p.id EntityType.project TrustScoreEventType.IDENTITY_VERIFIED
              config.trustScore.crypto.identityVerified
              "Team lead completed identity verification" (some "system")) ++
          (s.businesses.filter (fun b => b.userId = userId)).map (fun b =>
            recordedEvent b.id EntityType.business TrustScoreEventType.IDENTITY_VERIFIED
              config.trustScore.business.kybBasic
              "Business owner completed identity verification" (some "system")) ∧
        (∃ projectAudits businessAudits,
          s1.auditLog = s.auditLog ++ projectAudits ++ businessAudits ∧
          List.Forall₂ (fun p a => projectCalcAudit p.id a)
            (s.projects.filter (fun p => p.userId = userId)) projectAudits ∧
          List.Forall₂ (fun b a => businessCalcAudit b.id a)
            (s.businesses.filter (fun b => b.userId = userId)) businessAudits) ∧
        s1.events.length = s.events.length +
          ((s.projects.filter (fun p => p.userId = userId)).length +
           (s.businesses.filter (fun b => b.userId = userId)).length) ∧
        scoreCalcAudits s1 = scoreCalcAudits s +
          ((s.projects.filter (fun p => p.userId = userId)).length +
           (s.businesses.filter (fun b => b.userId = userId)).length) := by
  intro s uid
  obtain ⟨s1, hfan1, hev1, ⟨pa, haud1, hpa⟩, hids1, hbus1⟩ :=
    identityFanoutProjects_ok (s.projects.filter (fun p => p.userId = uid)) s
      (fun p hp => List.mem_map.mpr ⟨p, (List.mem_filter.mp hp).1, rfl⟩)
  obtain ⟨s2, hfan2, hev2, ⟨ba, haud2, hba⟩, hids2, hproj2⟩ :=
    identityFanoutBusinesses_ok (s.businesses.filter (fun b => b.userId = uid)) s1
      (fun b hb => by
        show b.id ∈ businessIds s1
        have hbids : businessIds s1 = businessIds s := by
          unfold businessIds
          rw [hbus1]
        rw [hbids]
        exact List.mem_map.mpr ⟨b, (List.mem_filter.mp hb).1, rfl⟩)
  have heventsEq : s2.events = s.events ++
      (s.projects.filter (fun p => p.userId = uid)).map (fun p =>
        recordedEvent p.id EntityType.project TrustScoreEventType.IDENTITY_VERIFIED
          config.trustScore.crypto.identityVerified
          "Team lead completed identity verification" (some "system")) ++
      (s.businesses.filter (fun b => b.userId = uid)).map (fun b =>
        recordedEvent b.id EntityType.business TrustScoreEventType.IDENTITY_VERIFIED
          config.trustScore.business.kybBasic
          "Business owner completed identity verification" (some "system")) := by
    rw [hev2, hev1]
  have hpaLen : pa.length = (s.projects.filter (fun p => p.userId = uid)).length :=
    hpa.length_eq.symm
  have hbaLen : ba.length = (s.businesses.filter (fun b => b.userId = uid)).length :=
    hba.length_eq.symm
  refine ⟨s2, ?_, heventsEq, ⟨pa, ba, by rw [haud2, haud1], hpa, hba⟩, ?_, ?_⟩
  · have hstep : onIdentityVerified s uid =
        match identityFanoutProjects s (s.projects.filter (fun p => p.userId = uid)) with
        | (s1, Except.ok _) =>
            identityFanoutBusinesses s1 (s.businesses.filter (fun b => b.userId = uid))
        | (s1, Except.error e) => (s1, Except.error e) := rfl
    rw [hstep, hfan1]
    exact hfan2
  · rw [heventsEq]
    simp [List.length_append]
  · have hfilterPa : pa.filter (fun a => a.action = "SCORE_CALCULATED") = pa :=
      filter_scoreCalc_of_forall₂ (fun _ _ hr => hr.2.1) hpa
    have hfilterBa : ba.filter (fun a => a.action = "SCORE_CALCULATED") = ba :=
      filter_scoreCalc_of_forall₂ (fun _ _ hr => hr.2.1) hba
    unfold scoreCalcAudits
    rw [haud2, haud1, List.filter_append, List.filter_append, hfilterPa, hfilterBa,
      List.length_append, List.length_append]
    omega

-- ===========================================================================
-- C7: ledger/audit accompaniment of score writes
-- ===========================================================================

/-- A stored project score that differs from the recomputed one. -/
def lowProject : CryptoProject := { blankProject "p1" "u1" with trustScore := 0 }

def cex7State : EngineState := { emptyState with projects := [lowProject] }

/-- C7 counterexample: on a store whose ledger is empty, the getScore read
path mutates the persisted currentScore from 0 to 50 while the ledger stays
empty — the mutation is neither preceded nor accompanied by any LedgerEvent
(only an audit line is written); moreover a trigger whose computed point
value is zero does not recompute at all: it returns the state unchanged,
with no ledger event and no audit line, contradicting the claim that such
triggers still recompute. -/
theorem score_write_ledger_C7_counterexample :
    cex7State.events = [] ∧
    cex7State.projects.map (fun p => p.trustScore) = [0] ∧
    (getProjectScore cex7State "p1").1.events = [] ∧
    (getProjectScore cex7State "p1").1.projects.map (fun p => p.trustScore) = [50] ∧
    (getProjectScore cex7State "p1").2 =
      Except.ok (projectCalcResult cex7State "p1" lowProject) ∧
    onLiquidityLocked cex7State "p1" 3 = (cex7State, Except.ok ()) := by
  refine ⟨rfl, rfl, rfl, ?_, ?_, rfl⟩
  · rfl
  · rfl

/-- C7 as amended: every successful recompute writes the score accompanied
by exactly one audit-log record but appends no LedgerEvent (so a score
mutation on the getScore read path need not be accompanied or preceded by
any LedgerEvent); recordEvent appends exactly one LedgerEvent and performs
exactly one recomputation; and trigger events whose computed point value is
zero perform no recompute and no write at all. -/
theorem score_write_ledger_C7 :
    (∀ (s : EngineState) (projectId : String) (s1 : EngineState) (r1 : TrustScoreResult),
      calculateProjectScore s projectId = (s1, Except.ok r1) →
      s1.events = s.events ∧ s1.auditLog.length = s.auditLog.length + 1) ∧
    (∀ (s : EngineState) (businessId : String) (s1 : EngineState) (r1 : TrustScoreResult),
      calculateBusinessScore s businessId = (s1, Except.ok r1) →
      s1.events = s.events ∧ s1.auditLog.length = s.auditLog.length + 1) ∧
    (∀ (s : EngineState) (entityId : String) (entityType : EntityType)
        (et : TrustScoreEventType) (pts : Int) (rsn : String) (tb : Option String)
        (s1 : EngineState) (u : Unit),
      recordEvent s entityId entityType et pts rsn tb = (s1, Except.ok u) →
      s1.events.length = s.events.length + 1 ∧
      scoreCalcAudits s1 = scoreCalcAudits s + 1) ∧
    (∀ (s : EngineState) (projectId : String) (months : Int), months < 6 →
      onLiquidityLocked s projectId months = (s, Except.ok ())) := by
  refine ⟨?_, ?_, ?_, ?_⟩
  · intro s pid s1 r1 h
    cases hfind : findProject s pid with
    | none =>
        rw [calculateProjectScore_notFound s pid hfind] at h
        simp at h
    | some p =>
        rw [calculateProjectScore_ok s pid p hfind] at h
        injection h with h1 h2
        subst h1
        exact ⟨rfl, by simp [projectCalcState]⟩
  · intro s bid s1 r1 h
    cases hfind : findBusiness s bid with
    | none =>
        rw [calculateBusinessScore_notFound s bid hfind] at h
        simp at h
    | some b =>
        rw [calculateBusinessScore_ok s bid b hfind] at h
        injection h with h1 h2
        subst h1
        exact ⟨rfl, by simp [businessCalcState]⟩
  · intro s eid ty et pts rsn tb s1 u h
    cases ty with
    | project =>
        rw [recordEvent_project_eq] at h
        cases hfind : findProject (withEvent s (recordedEvent eid EntityType.project et pts rsn tb))
          eid with
        | none =>
            rw [calculateProjectScore_notFound _ _ hfind] at h
            simp [Except.map] at h
        | some p =>
            rw [calculateProjectScore_ok _ _ p hfind] at h
            injection h with h1 h2
            subst h1
            constructor
            · show ((s.events ++ [recordedEvent eid EntityType.project et pts rsn tb]).length) =
                s.events.length + 1
              simp
            · have h1 := scoreCalcAudits_projectCalcState
                (withEvent s (recordedEvent eid EntityType.project et pts rsn tb)) eid p
              exact h1
    | business =>
        rw [recordEvent_business_eq] at h
        cases hfind : findBusiness (withEvent s (recordedEvent eid EntityType.business et pts rsn tb))
          eid with
        | none =>
            rw [calculateBusinessScore_notFound _ _ hfind] at h
            simp [Except.map] at h
        | some b =>
            rw [calculateBusinessScore_ok _ _ b hfind] at h
            injection h with h1 h2
            subst h1
            constructor
            · show ((s.events ++ [recordedEvent eid EntityType.business et pts rsn tb]).length) =
                s.events.length + 1
              simp
            · have h1 := scoreCalcAudits_businessCalcState
                (withEvent s (recordedEvent eid EntityType.business et pts rsn tb)) eid b
              exact h1
  · intro s pid m hm
    have h12 : ¬ (m ≥ 12) := by omega
    have h6 : ¬ (m ≥ 6) := by omega
    simp [onLiquidityLocked, h12, h6]

/-- C7 witness: the amended clauses instantiated on the base fixture. -/
theorem score_write_ledger_C7_witness :
    ((projectCalcState baseState "p1" (blankProject "p1" "u1")).events = baseState.events ∧
     (projectCalcState baseState "p1" (blankProject "p1" "u1")).auditLog.length =
       baseState.auditLog.length + 1) ∧
    ((projectCalcState
        (withEvent baseState (recordedEvent "p1" EntityType.project
          TrustScoreEventType.MANUAL_ADJUSTMENT 5 "bonus" none)) "p1"
        (blankProject "p1" "u1")).events.length = baseState.events.length + 1 ∧
     scoreCalcAudits (projectCalcState
        (withEvent baseState (recordedEvent "p1" EntityType.project
          TrustScoreEventType.MANUAL_ADJUSTMENT 5 "bonus" none)) "p1"
        (blankProject "p1" "u1")) = scoreCalcAudits baseState + 1) ∧
    onLiquidityLocked baseState "p1" 3 = (baseState, Except.ok ()) :=
  ⟨score_write_ledger_C7.1 baseState "p1" _ _ (calculateProjectScore_ok baseState "p1" _ rfl),
   score_write_ledger_C7.2.2.1 baseState "p1" EntityType.project
     TrustScoreEventType.MANUAL_ADJUSTMENT 5 "bonus" none _ () rfl,
   score_write_ledger_C7.2.2.2 baseState "p1" 3 (by norm_num)⟩

end MarkBackend
